import Mathlib

/-!
Verification development for the ComfyUI-segment-anything-2 node pack
(file `nodes.py`).  The Python nodes are shallowly embedded as Lean
functions: tensors of booleans become lists of lists of `Bool`,
floating-point scores and mask logits become rationals, fallible code
returns `Except String`, and the external SAM2 model (its `predict`,
`init_state`, `add_new_points`, `propagate_in_video` and `generate`
methods, described in spec section 6) is injected as explicit oracle
data so that the orchestration logic of the nodes themselves is what is
being verified.
-/

namespace SAM2Nodes

/-- A pixel coordinate `(x, y)`, as parsed from the JSON coordinate lists. -/
abbrev Point := Int × Int

/-- A bounding box `(min_x, min_y, max_x, max_y)` as exchanged with
Florence2toCoordinates (`nodes.py` line 156). -/
structure Box4 where
  minX : Int
  minY : Int
  maxX : Int
  maxY : Int
deriving DecidableEq, Repr

/-- The `segmentor` field of a loaded SAM2MODEL dictionary
(`nodes.py` lines 33-35). -/
inductive Segmentor where
  | single_image
  | video
  | automaskgenerator
deriving DecidableEq, Repr

/-- Shallow embedding of the SAM2MODEL dictionary built at lines 102-108.
`version21` models whether the string field `version` contains "2.1"
(the loader sets it to exactly "2.0" or "2.1", line 91).  `outerToFails`
and `innerToFails` model whether the device-placement calls
`model.to(...)` and `model.model.to(...)` raise for this handle. -/
structure SamModel where
  segmentor : Segmentor
  version21 : Bool
  outerToFails : Bool
  innerToFails : Bool
deriving DecidableEq, Repr

/-- A boolean mask, row-major `H × W` grid of booleans. -/
abbrev Mask := List (List Bool)

/-- A grid of mask logits (floats in the source, rationals here). -/
abbrev QMask := List (List ℚ)

/-- Pixel lookup in a mask (out-of-range reads as `false`). -/
def pix (m : Mask) (i j : Nat) : Bool :=
  (m.getD i []).getD j false

/-- Logit lookup in a logit grid (out-of-range reads as `0`). -/
def qpix (q : QMask) (i j : Nat) : ℚ :=
  (q.getD i []).getD j 0

/-- `np.zeros((H, W))` as a boolean mask (lines 343, 398, 577, 682). -/
def zerosMask (H W : Nat) : Mask :=
  List.replicate H (List.replicate W false)

/-- `np.logical_or(a, b)` for two same-shaped masks (lines 345, 401, 580, 688). -/
def orMask (a b : Mask) : Mask :=
  List.zipWith (fun ra rb => List.zipWith (fun x y => x || y) ra rb) a b

/-- `(logits > 0.0)`: elementwise logit thresholding at 0.0
(lines 391, 400, 579). -/
def threshMask (q : QMask) : Mask :=
  q.map (fun row => row.map (fun v => decide (0 < v)))

/-- The mask-shape predicate: `m` is an `H × W` grid. -/
def maskShape (H W : Nat) (m : Mask) : Prop :=
  m.length = H ∧ ∀ row ∈ m, row.length = W

instance (H W : Nat) (m : Mask) : Decidable (maskShape H W m) := by
  unfold maskShape; infer_instance

/-- The logit-grid-shape predicate: `q` is an `H × W` grid. -/
def qmaskShape (H W : Nat) (q : QMask) : Prop :=
  q.length = H ∧ ∀ row ∈ q, row.length = W

instance (H W : Nat) (q : QMask) : Decidable (qmaskShape H W q) := by
  unfold qmaskShape; infer_instance

/-- The running OR-fold the nodes use to merge per-object masks into one
combined mask, starting from `np.zeros((H, W))`
(lines 343-345, 398-401, 577-580, 682-688). -/
def combineMasks (H W : Nat) (ms : List Mask) : Mask :=
  ms.foldl orMask (zerosMask H W)

/-! ### PromptBuilder: coordinate and label construction
(`Sam2Segmentation.segment`, lines 233-303). -/

/-- Lines 244 and 260 with `individual_objects = false`: the final
coordinate array is the positive coordinates followed (when negatives
are supplied) by the negative coordinates, concatenated along axis 0.
`none` models `coordinates_negative is None`.  When the negative list is
the literal empty list, `np.array([])` is 1-dimensional while the
positive array is 2-dimensional, and `np.concatenate` at line 260 raises
a ValueError; this is the first error branch. -/
def sharedCoords (P : List Point) (N : Option (List Point)) :
    Except String (List Point) :=
  match N with
  | none => .ok P
  | some [] => .error "ValueError: all the input arrays must have same number of dimensions"
  | some ns => .ok (P ++ ns)

/-- Lines 282, 291-292 and 301 with `individual_objects = false`:
`np.ones(len(P))` labels for the positives, `np.zeros(len(N))` labels
for the negatives, concatenated positives first. -/
def sharedLabels (P : List Point) (N : Option (List Point)) : List Int :=
  match N with
  | none => List.replicate P.length 1
  | some ns => List.replicate P.length 1 ++ List.replicate ns.length 0

/-- Lines 246-258 with `individual_objects = true`: each positive
coordinate becomes a one-point group (shape `(|P|, 1, 2)`); the negative
array is reshaped to one-point groups and the assert at line 252 fails
when there are more negative groups than positive groups; the `while`
loop at lines 256-257 pads by appending the first negative group until
the counts match; line 258 then concatenates along axis 1 so each group
is its positive point followed by its negative point.  When the negative
list is empty, `np.array([])` is 1-dimensional, the `ndim == 2` reshape
at line 253 does not fire, and the slice `[:1, :, :]` inside the while
loop raises an IndexError (too many indices for a 1-dimensional array);
this is modelled by the second error branch. -/
def individualGroups (P N : List Point) : Except String (List (List Point)) :=
  if P.length < N.length then
    .error "Cannot have more negative than positive points in individual_objects mode"
  else
    match N with
    | [] => .error "IndexError: too many indices for array"
    | n0 :: _ =>
      let negGroups := N.map (fun c => [c]) ++ List.replicate (P.length - N.length) [n0]
      .ok (List.zipWith (fun p g => p :: g) P negGroups)

/-- Lines 284-299 with `individual_objects = true`: one `[1]` label
group per positive point; when negatives are present, one `[0]` group
per positive point is appended along axis 1, giving `[1, 0]` per group. -/
def individualLabels (P : List Point) (hasNeg : Bool) : List (List Int) :=
  if hasNeg then List.replicate P.length [1, 0]
  else List.replicate P.length [1]

/-- `final_coords` for `Sam2Segmentation.segment` (lines 243-262),
represented uniformly as a list of coordinate groups: with
`individual_objects = false` the whole flat list is one group. -/
def buildFinalCoords (individualObjects : Bool) (P : List Point)
    (N : Option (List Point)) : Except String (List (List Point)) :=
  if individualObjects then
    match N with
    | some ns => individualGroups P ns
    | none => .ok (P.map (fun c => [c]))
  else (sharedCoords P N).map (fun flat => [flat])

/-! ### Multi-mask selection and per-object merging
(`Sam2Segmentation.segment`, lines 334-347). -/

/-- The maximum of a score list (the value `np.argsort(scores)[::-1][0]`
points at). -/
def maxScore : List ℚ → ℚ
  | [] => 0
  | [s] => s
  | s :: b :: t => max s (maxScore (b :: t))

/-- The index selected by `np.argsort(scores)[::-1][0]` at line 335:
the position of a maximal score.  `np.argsort` sorts ascending, so after
reversal the first entry is a position holding the maximum; on ties
`np.argsort`'s quicksort order among equals is unspecified, and this
model picks the latest maximal position (the choice is irrelevant to the
verified property, which only speaks about the selected score value). -/
def lastArgmax : List ℚ → Nat
  | [] => 0
  | [_] => 0
  | s :: b :: t =>
    if s ≤ maxScore (b :: t) then lastArgmax (b :: t) + 1 else 0

/-- The two shapes `model.predict` can return (spec section 6): a 3-d
stack of candidate masks with one score each (`out_masks.ndim == 3`), or
a 4-d one-mask-per-object-id output. -/
inductive PredictOut where
  | multi (masks : List Mask) (scores : List ℚ)
  | perObject (masks : List Mask)

/-- Lines 334-347: for a 3-d output keep the candidate at
`np.argsort(scores)[::-1][0]` (the highest-scoring mask); for a 4-d
output OR all per-object masks together starting from
`np.zeros((H, W))`.  (The source wraps the kept mask in a leading
length-1 axis that lines 419-423 strip again; the model elides the
round trip.) -/
def keepMask (H W : Nat) : PredictOut → Mask
  | .multi masks scores => masks.getD (lastArgmax scores) (zerosMask H W)
  | .perObject masks => combineMasks H W masks

/-! ### Video propagation (`propagate_in_video` consumption) -/

/-- One item yielded by the external generator
`model.propagate_in_video(state)`: a frame index, the tracked object
ids, and one logit grid per object (spec section 6). -/
structure Yield where
  frameIdx : Nat
  objIds : List Nat
  logits : List QMask
deriving DecidableEq, Repr

/-- Python dict assignment `d[k] = v` on an insertion-ordered dict:
a fresh key is appended, an existing key keeps its position and gets the
new value. -/
def dictInsert {α : Type} (d : List (Nat × α)) (k : Nat) (v : α) :
    List (Nat × α) :=
  if d.any (fun p => p.1 = k) then
    d.map (fun p => if p.1 = k then (k, v) else p)
  else d ++ [(k, v)]

/-- Lines 577-580 (and 396-401): the combined mask of one yielded frame,
the OR over `enumerate(out_obj_ids)` of `out_mask_logits[i] > 0.0`,
starting from `np.zeros((H, W))`.  (Each `out_mask_logits[i]` carries a
leading length-1 axis in the source which broadcasting and the final
`permute(1,2,0)[:, :, 0]` at lines 594-597 make irrelevant; the model
works with the plain `H × W` grid.) -/
def combineY (H W : Nat) (y : Yield) : Mask :=
  (List.range y.objIds.length).foldl
    (fun acc i => orMask acc (threshMask (y.logits.getD i []))) (zerosMask H W)

/-- The dict comprehension at lines 390-393: per-frame map from object
id to thresholded mask, built with `enumerate(out_obj_ids)`. -/
def objMaskDict (y : Yield) : List (Nat × Mask) :=
  (List.range y.objIds.length).foldl
    (fun d i => dictInsert d (y.objIds.getD i 0) (threshMask (y.logits.getD i []))) []

/-- The `video_segments` dict of `Sam2VideoSegmentation.segment`
(lines 572-581) and of the `individual_objects` video path of
`Sam2Segmentation.segment` (lines 395-402): one combined mask per
yielded frame index, in insertion order. -/
def videoSegmentsCombined (H W : Nat) (yields : List Yield) :
    List (Nat × Mask) :=
  yields.foldl (fun d y => dictInsert d y.frameIdx (combineY H W y)) []

/-- The `video_segments` dict of the shared-prompt video path of
`Sam2Segmentation.segment` (lines 388-393): per frame, the per-object
mask dict. -/
def videoSegmentsPerObj (yields : List Yield) :
    List (Nat × List (Nat × Mask)) :=
  yields.foldl (fun d y => dictInsert d y.frameIdx (objMaskDict y)) []

/-! ### `Sam2Segmentation.segment` (lines 201-425) -/

/-- The observable model/device operations a node call performs, used to
state that the disabled path performs none of them. -/
inductive SegOp where
  | toDeviceOuter
  | toDeviceInner
  | setImage (i : Nat)
  | predictCall (i : Nat)
  | initStateCall
  | addPointsCall (objId : Nat)
  | propagateCall
  | offloadOuter
  | offloadInner
deriving DecidableEq, Repr

/-- The `try: model.to(d) except: model.model.to(d)` pattern of
`Sam2Segmentation.segment` (lines 306-309 and 413-416): the outer
placement failure is swallowed and the inner attribute is tried; only a
failure of both surfaces. -/
def tryToDevice (m : SamModel) (outerOp innerOp : SegOp) :
    Except String (List SegOp) :=
  if m.outerToFails then
    if m.innerToFails then .error "device placement failed"
    else .ok [outerOp, innerOp]
  else .ok [outerOp]

/-- The `single_image` loop at lines 317-349: per image, set the image
context, run predict (outputs injected through `predictOut`), and keep
the selected/merged mask. -/
def singleImageLoop (B H W : Nat) (predictOut : Nat → PredictOut) :
    List Mask × List SegOp :=
  ((List.range B).map (fun i => keepMask H W (predictOut i)),
   (List.range B).flatMap (fun i => [SegOp.setImage i, SegOp.predictCall i]))

/-- The `video` branch at lines 351-410: initialize (resetting any prior
state), then raise at lines 361-362 when bboxes are combined with
`individual_objects`; the `individual_objects` prompting loop at
line 366 iterates `zip(final_coords, final_labels)`, which raises a
NameError when no positive coordinates were supplied (`final_coords` was
never assigned); otherwise add points (one `add_new_points_or_box` per
coordinate group in `individual_objects` mode with `obj_id = i`,
otherwise a single call with `obj_id = 1`) and consume
`propagate_in_video`.  In `individual_objects` mode the per-frame
combined masks are collected; in the shared mode the per-(frame, object)
masks of the nested dict are flattened (lines 404-410).  (In the source
the `init_state` call at lines 353-355 precedes the two raises; the
trace is discarded on error, so the model checks first.) -/
def videoBranch (H W : Nat) (individualObjects bboxesGiven : Bool)
    (prompts : Option (List (List Point))) (yields : List Yield) :
    Except String (List Mask × List SegOp) :=
  if individualObjects ∧ bboxesGiven then
    .error "bboxes not supported with individual_objects"
  else if individualObjects ∧ prompts.isNone then
    .error "NameError: name final_coords is not defined"
  else
    let addOps :=
      if individualObjects then
        (List.range (prompts.getD []).length).map SegOp.addPointsCall
      else [SegOp.addPointsCall 1]
    let maskList :=
      if individualObjects then
        (videoSegmentsCombined H W yields).map Prod.snd
      else
        (videoSegmentsPerObj yields).flatMap (fun fm => fm.2.map Prod.snd)
    .ok (maskList, SegOp.initStateCall :: addOps ++ [SegOp.propagateCall])

/-- Shallow embedding of `Sam2Segmentation.segment` (lines 201-425).
The external model is injected: `predictOut i` is what `model.predict`
returns for image `i`, and `videoYields` is the sequence produced by
`model.propagate_in_video`.  The result is the stacked mask list
together with the trace of model/device operations performed; `.error`
models an uncaught Python exception. -/
def segment (m : SamModel) (B H W : Nat) (keepModelLoaded : Bool)
    (coordinatesPositive coordinatesNegative : Option (List Point))
    (individualObjects : Bool) (bboxesGiven : Bool) (enabled : Bool)
    (predictOut : Nat → PredictOut) (videoYields : List Yield) :
    Except String (List Mask × List SegOp) :=
  -- lines 203-205: disabled short-circuit, one H x W zero mask
  if enabled = false then .ok ([zerosMask H W], [])
  else
  -- lines 219-220
  if m.segmentor = Segmentor.automaskgenerator then
    .error "For automaskgenerator use Sam2AutoMaskSegmentation -node"
  -- lines 224-225
  else if m.segmentor = Segmentor.video ∧ bboxesGiven ∧ m.version21 = false then
    .error "2.0 model does not support bboxes with video segmentor"
  else do
    -- lines 233-303: prompt construction (can raise in individual mode)
    let prompts ←
      match coordinatesPositive with
      | some P => (buildFinalCoords individualObjects P coordinatesNegative).map some
      | none => .ok none
    -- lines 306-309: best-effort placement on the compute device
    let placeOps ← tryToDevice m SegOp.toDeviceOuter SegOp.toDeviceInner
    let (maskList, runOps) ←
      if m.segmentor = Segmentor.single_image then
        .ok (singleImageLoop B H W predictOut)
      else
        videoBranch H W individualObjects bboxesGiven prompts videoYields
    -- lines 412-416: best-effort placement on the offload device
    let offloadOps ←
      if keepModelLoaded then pure []
      else tryToDevice m SegOp.offloadOuter SegOp.offloadInner
    -- lines 418-424: torch.stack fails on an empty mask list
    if maskList.isEmpty then .error "stack expects a non-empty TensorList"
    else .ok (maskList, placeOps ++ runOps ++ offloadOps)

/-! ### `Sam2VideoSegmentation.segment` (lines 551-600) -/

/-- Shallow embedding of `Sam2VideoSegmentation.segment`.  Unlike
`Sam2Segmentation.segment`, the device placements at lines 563 and 591
are bare `model.to(...)` calls with no `try/except`, so an outer
placement failure surfaces to the caller.  The propagation loop
(lines 572-582) fills the insertion-ordered `video_segments` dict with
one combined mask per yielded frame and lines 584-587 collect them in
dict (= insertion) order; `torch.stack` at line 599 fails if no frame
was yielded. -/
def videoSegmentNode (m : SamModel) (H W : Nat) (keepModelLoaded : Bool)
    (yields : List Yield) : Except String (List Mask × List SegOp) :=
  -- lines 560-561
  if m.segmentor ≠ Segmentor.video then .error "Loaded model is not SAM2Video"
  -- line 563: model.to(device), not guarded
  else if m.outerToFails then .error "device placement failed"
  else
    let maskList := (videoSegmentsCombined H W yields).map Prod.snd
    -- lines 590-591: model.to(offload_device), not guarded
    if keepModelLoaded = false ∧ m.outerToFails then
      .error "device placement failed"
    -- lines 593-599
    else if maskList.isEmpty then .error "stack expects a non-empty TensorList"
    else .ok (maskList, [SegOp.toDeviceOuter, SegOp.propagateCall])

/-! ### `Sam2VideoSegmentationAddPoints.segment` (lines 452-533) and the
InferenceState lifecycle -/

/-- The external InferenceState (spec section 3): the ingested video
context (here its frame count) and the accumulated
`(frame_idx, obj_id, points, labels)` prompts. -/
structure InferenceState where
  numFrames : Nat
  prompts : List (Nat × Nat × List Point × List Int)
deriving DecidableEq, Repr

/-- External `model.init_state(video, ...)` (spec section 6): allocates
a fresh state over the video with no prompts. -/
def initState (video : List Nat) : InferenceState :=
  { numFrames := video.length, prompts := [] }

/-- External `model.reset_state(state)` (spec section 6): discards the
accumulated prompts of a state. -/
def resetState (s : InferenceState) : InferenceState :=
  { s with prompts := [] }

/-- External `model.add_new_points(...)` (spec section 6): records one
more prompt on the state. -/
def addNewPoints (s : InferenceState) (frameIdx objId : Nat)
    (points : List Point) (labels : List Int) : InferenceState :=
  { s with prompts := s.prompts ++ [(frameIdx, objId, points, labels)] }

/-- Model calls observable during the video-session lifecycle. -/
inductive VideoOp where
  | reset (st : InferenceState)
  | initCall (video : List Nat)
  | addCall (frameIdx objId : Nat)
deriving DecidableEq, Repr

/-- The node instance attribute `self.inference_state` of
`Sam2VideoSegmentationAddPoints` (and of `Sam2Segmentation` in video
mode): at most one InferenceState is held. -/
structure AddPointsNode where
  inference_state : Option InferenceState
deriving DecidableEq, Repr

/-- Lines 507-511 (and the identical pattern at lines 353-355):
initializing with a new video first resets the prior InferenceState if
one exists, then replaces it with a fresh `init_state` result.  Returns
the updated node together with the model calls made, in order. -/
def initStep (node : AddPointsNode) (video : List Nat) :
    AddPointsNode × List VideoOp :=
  match node.inference_state with
  | some st =>
    ({ inference_state := some (initState video) },
     [VideoOp.reset st, VideoOp.initCall video])
  | none =>
    ({ inference_state := some (initState video) },
     [VideoOp.initCall video])

/-- Shallow embedding of `Sam2VideoSegmentationAddPoints.segment`
(lines 452-533): check the segmentor, build the combined
positives-then-negatives coordinate and label arrays (lines 477-501),
initialize a fresh state (resetting any prior one) when no previous
inference state is passed in — or adopt the passed state — and add the
new points.  Returns the updated node, the state handed to the caller,
its frame count, and the model-call trace. -/
def addPointsSegment (node : AddPointsNode) (m : SamModel)
    (coordsPos : List Point) (coordsNeg : Option (List Point))
    (frameIdx objId : Nat) (video : Option (List Nat))
    (prevState : Option (InferenceState × Nat)) :
    Except String (AddPointsNode × InferenceState × Nat × List VideoOp) :=
  if m.segmentor ≠ Segmentor.video then
    .error "Loaded model is not SAM2Video"
  else
    -- lines 477-501: combined coordinates and labels
    let negC := (coordsNeg.getD [])
    let combinedCoords := coordsPos ++ negC
    let combinedLabels :=
      List.replicate coordsPos.length (1 : Int) ++ List.replicate negC.length 0
    match prevState with
    | none =>
      match video with
      | none =>
        -- line 511 dereferences `image` which is None here
        .error "AttributeError: NoneType object has no attribute permute"
      | some v =>
        let ops1 := (initStep node v).2
        let st2 := addNewPoints (initState v) frameIdx objId combinedCoords combinedLabels
        .ok ({ inference_state := some st2 }, st2, v.length,
             ops1 ++ [VideoOp.addCall frameIdx objId])
    | some (st, n) =>
      -- lines 512-515: adopt the previous inference state
      let st2 := addNewPoints st frameIdx objId combinedCoords combinedLabels
      .ok ({ inference_state := some st2 }, st2, n,
           [VideoOp.addCall frameIdx objId])

/-! ### `Sam2AutoSegmentation.segment` (lines 631-711) -/

/-- One proposal of the external `model.generate(image)` call: a mask
field and its bounding box (spec section 6). -/
structure Proposal where
  segmentation : Mask
  bbox : Box4
deriving DecidableEq, Repr

/-- An RGB color triple from `random.choices(range(256), k=3)`. -/
abbrev Color := Nat × Nat × Nat

/-- One channel of the overlay update at lines 694-699:
`np.where(colored_mask > 0, colored_mask, overlay)` applied channelwise,
where `colored_mask[:, :, ch] = mask * color[ch]` — the new color
channel wins exactly where the mask is set and that channel is nonzero. -/
def overlayChan (old : Nat) (m : Mask) (c : Nat) (i j : Nat) : Nat :=
  if pix m i j && decide (0 < c) then c else old

/-- The overlay pixel after layering all proposal masks in generation
order over a black image (lines 679-699). -/
def overlayPix (masksColors : List (Mask × Color)) (i j : Nat) : Color :=
  masksColors.foldl
    (fun acc mc =>
      (overlayChan acc.1 mc.1 mc.2.1 i j,
       overlayChan acc.2.1 mc.1 mc.2.2.1 i j,
       overlayChan acc.2.2 mc.1 mc.2.2.2 i j))
    (0, 0, 0)

/-- The colorized visualization image for one input image. -/
def overlayImage (H W : Nat) (masksColors : List (Mask × Color)) :
    List (List Color) :=
  (List.range H).map (fun i => (List.range W).map (fun j => overlayPix masksColors i j))

/-- The per-image body of the loop at lines 669-702, threaded over the
accumulated `(out_list, segment_out_list, bbox_list)`.  `out_list` and
`segment_out_list` are appended to; `bbox_list` is rebound to the
current image, so earlier images' boxes are dropped. -/
def autoStep (H W : Nat) (colors : Nat → Nat → Color)
    (acc : List Mask × List (List (List Color)) × List Box4)
    (iprops : Nat × List Proposal) :
    List Mask × List (List (List Color)) × List Box4 :=
  let props := iprops.2
  let mask_list := props.map (fun p => p.segmentation)
  let bbox_list := props.map (fun p => p.bbox)
  let cols := (List.range props.length).map (colors iprops.1)
  (acc.1 ++ [combineMasks H W mask_list],
   acc.2.1 ++ [overlayImage H W (mask_list.zip cols)],
   bbox_list)

/-- Shallow embedding of `Sam2AutoSegmentation.segment` (lines 631-711).
`images` is given directly as the per-image proposal lists produced by
the external `model.generate`; `colors i j` injects the random color
drawn for proposal `j` of image `i`.  `np.stack` at line 704 fails on an
empty batch.  The returned bounding-box list is whatever the last loop
iteration left in `bbox_list`. -/
def autoSegment (m : SamModel) (H W : Nat) (images : List (List Proposal))
    (colors : Nat → Nat → Color) :
    Except String (List Mask × List (List (List Color)) × List Box4) :=
  -- lines 640-641
  if m.segmentor ≠ Segmentor.automaskgenerator then
    .error "Loaded model is not SAM2AutomaticMaskGenerator"
  else
    let res := (images.enum).foldl (autoStep H W colors) ([], [], [])
    -- line 704: np.stack needs at least one array
    if res.2.1.isEmpty then .error "need at least one array to stack"
    else .ok res

/-! ### `Florence2toCoordinates.segment` (lines 130-175) -/

/-- The center of a bounding box, `int((min + max) / 2)` per axis
(lines 157-158, 166-167); Python `int()` truncates toward zero, as does
`Int` division here. -/
def centerOf (b : Box4) : Int × Int :=
  ((b.minX + b.maxX) / 2, (b.minY + b.maxY) / 2)

/-- The inner loop of the batch branch (lines 154-160): for one valid
index, every outer item `data[i]` is indexed at `idx` — this raises an
IndexError when an item is shorter than `idx + 1`, because the index was
only validated against `len(data[0])` — and contributes one center point
and one box. -/
def batchItems (idx : Nat) :
    List (List Box4) → List (Int × Int) × List Box4 →
    Except String (List (Int × Int) × List Box4)
  | [], acc => .ok acc
  | item :: rest, acc =>
    match item[idx]? with
    | none => .error "IndexError: list index out of range"
    | some bbox =>
      batchItems idx rest (acc.1 ++ [centerOf bbox], acc.2 ++ [bbox])

/-- The batch loop at lines 151-160: an index out of range for
`data[0]` is silently skipped (the `if` at line 153 has no `else`); a
valid index runs the inner per-item loop. -/
def batchLoop (data : List (List Box4)) (d0len : Nat) :
    List Int → List (Int × Int) × List Box4 →
    Except String (List (Int × Int) × List Box4)
  | [], acc => .ok acc
  | idx :: rest, acc =>
    if 0 ≤ idx ∧ idx < (d0len : Int) then
      match batchItems idx.toNat data acc with
      | .error e => .error e
      | .ok acc2 => batchLoop data d0len rest acc2
    else
      batchLoop data d0len rest acc

/-- The non-batch loop at lines 162-171: valid indices (checked against
`len(data[0])`) append a center point and a box; an out-of-range index
raises a ValueError immediately. -/
def nonBatchLoop (d0 : List Box4) :
    List Int → List (Int × Int) × List Box4 →
    Except String (List (Int × Int) × List Box4)
  | [], acc => .ok acc
  | idx :: rest, acc =>
    if 0 ≤ idx ∧ idx < (d0.length : Int) then
      nonBatchLoop d0 rest
        (acc.1 ++ [centerOf (d0.getD idx.toNat ⟨0, 0, 0, 0⟩)],
         acc.2 ++ [d0.getD idx.toNat ⟨0, 0, 0, 0⟩])
    else
      .error ("There is nothing in index: " ++ toString idx)

/-- Shallow embedding of `Florence2toCoordinates.segment`
(lines 130-175) after index parsing, with `indexes` the parsed integer
index list.  Empty data short-circuits at line 140 (the source returns a
1-tuple there, modelled as empty box output).  In batch mode
(lines 151-160) an out-of-range index is silently skipped — the `if` has
no `else` — while each in-range index contributes one entry per outer
item (raising an IndexError if a later item is shorter than the index,
which is validated only against `len(data[0])`); in non-batch mode
(lines 161-171) an out-of-range index raises a ValueError. -/
def florenceSegment (data : List (List Box4)) (indexes : List Int)
    (batch : Bool) : Except String (List (Int × Int) × List Box4) :=
  if data.length = 0 then .ok ([(0, 0)], [])
  else
    let d0 := data.getD 0 []
    if batch then
      batchLoop data d0.length indexes ([], [])
    else
      nonBatchLoop d0 indexes ([], [])

/-! ## Helper lemmas about the mask primitives -/

theorem maskShape_zerosMask (H W : Nat) : maskShape H W (zerosMask H W) := by
  refine ⟨List.length_replicate _ _, ?_⟩
  intro row hrow
  rcases (List.mem_replicate.mp hrow) with ⟨-, rfl⟩
  exact List.length_replicate _ _

theorem pix_zerosMask (H W i j : Nat) : pix (zerosMask H W) i j = false := by
  unfold pix zerosMask
  simp only [List.getD_eq_getElem?_getD, List.getElem?_replicate]
  by_cases h : i < H
  · by_cases h2 : j < W <;> simp [h, h2, List.getElem?_replicate]
  · simp [h]

theorem maskShape_orMask {H W : Nat} {a b : Mask}
    (ha : maskShape H W a) (hb : maskShape H W b) :
    maskShape H W (orMask a b) := by
  obtain ⟨hal, har⟩ := ha
  obtain ⟨hbl, hbr⟩ := hb
  constructor
  · rw [orMask, List.length_zipWith, hal, hbl, min_self]
  · intro row hrow
    rw [orMask, List.mem_iff_getElem] at hrow
    obtain ⟨i, hi, hrow⟩ := hrow
    rw [List.getElem_zipWith] at hrow
    subst hrow
    rw [List.length_zipWith, hal, hbl, min_self] at hi
    rw [List.length_zipWith]
    have h1 : a[i].length = W := har _ (List.getElem_mem _)
    have h2 : b[i].length = W := hbr _ (List.getElem_mem _)
    rw [h1, h2, min_self]

theorem pix_orMask {H W : Nat} {a b : Mask}
    (ha : maskShape H W a) (hb : maskShape H W b)
    {i j : Nat} (hi : i < H) (hj : j < W) :
    pix (orMask a b) i j = (pix a i j || pix b i j) := by
  obtain ⟨hal, har⟩ := ha
  obtain ⟨hbl, hbr⟩ := hb
  have hia : i < a.length := by rw [hal]; exact hi
  have hib : i < b.length := by rw [hbl]; exact hi
  have hio : i <
      (List.zipWith (fun ra rb => List.zipWith (fun x y => x || y) ra rb) a b).length := by
    rw [List.length_zipWith, hal, hbl, min_self]; exact hi
  unfold pix orMask
  rw [List.getD_eq_getElem _ _ hio, List.getD_eq_getElem _ _ hia,
      List.getD_eq_getElem _ _ hib, List.getElem_zipWith]
  have hja : j < a[i].length := by rw [har _ (List.getElem_mem _)]; exact hj
  have hjb : j < b[i].length := by rw [hbr _ (List.getElem_mem _)]; exact hj
  have hjz : j < (List.zipWith (fun x y => x || y) a[i] b[i]).length := by
    rw [List.length_zipWith, har _ (List.getElem_mem _), hbr _ (List.getElem_mem _), min_self]
    exact hj
  rw [List.getD_eq_getElem _ _ hjz, List.getD_eq_getElem _ _ hja,
      List.getD_eq_getElem _ _ hjb, List.getElem_zipWith]

theorem maskShape_threshMask {H W : Nat} {q : QMask}
    (hq : qmaskShape H W q) : maskShape H W (threshMask q) := by
  obtain ⟨hl, hr⟩ := hq
  constructor
  · rw [threshMask, List.length_map]; exact hl
  · intro row hrow
    rw [threshMask, List.mem_map] at hrow
    obtain ⟨r, hrm, rfl⟩ := hrow
    rw [List.length_map]
    exact hr _ hrm

theorem getD_row_thresh (row : List ℚ) (j : Nat) :
    (row.map (fun v => decide (0 < v))).getD j false = decide (0 < row.getD j 0) := by
  induction row generalizing j with
  | nil => simp
  | cons v rest ih =>
    cases j with
    | zero => simp
    | succ j2 => simpa using ih j2

theorem pix_threshMask (q : QMask) (i j : Nat) :
    pix (threshMask q) i j = decide (0 < qpix q i j) := by
  unfold pix qpix threshMask
  rcases Nat.lt_or_ge i q.length with hi | hi
  · have him : i < (q.map (fun row => row.map (fun v => decide (0 < v)))).length := by
      rw [List.length_map]; exact hi
    rw [List.getD_eq_getElem _ _ him, List.getD_eq_getElem _ _ hi, List.getElem_map]
    exact getD_row_thresh q[i] j
  · have him : (q.map (fun row => row.map (fun v => decide (0 < v)))).length ≤ i := by
      rw [List.length_map]; exact hi
    rw [List.getD_eq_default _ _ him, List.getD_eq_default _ _ hi]
    simp

theorem maskShape_foldl_orMask {H W : Nat} :
    ∀ (ms : List Mask) (acc : Mask), maskShape H W acc →
      (∀ m ∈ ms, maskShape H W m) → maskShape H W (ms.foldl orMask acc)
  | [], acc, hacc, _ => hacc
  | m :: rest, acc, hacc, hms => by
    rw [List.foldl_cons]
    exact maskShape_foldl_orMask rest (orMask acc m)
      (maskShape_orMask hacc (hms m (by simp)))
      (fun x hx => hms x (by simp [hx]))

theorem pix_foldl_orMask {H W : Nat} {i j : Nat} (hi : i < H) (hj : j < W) :
    ∀ (ms : List Mask) (acc : Mask), maskShape H W acc →
      (∀ m ∈ ms, maskShape H W m) →
      pix (ms.foldl orMask acc) i j = (pix acc i j || ms.any (fun m => pix m i j))
  | [], acc, _, _ => by simp
  | m :: rest, acc, hacc, hms => by
    rw [List.foldl_cons,
        pix_foldl_orMask hi hj rest (orMask acc m)
          (maskShape_orMask hacc (hms m (by simp)))
          (fun x hx => hms x (by simp [hx])),
        pix_orMask hacc (hms m (by simp)) hi hj]
    simp [Bool.or_assoc]

theorem pix_combineMasks {H W : Nat} {ms : List Mask}
    (hms : ∀ m ∈ ms, maskShape H W m) {i j : Nat} (hi : i < H) (hj : j < W) :
    pix (combineMasks H W ms) i j = ms.any (fun m => pix m i j) := by
  rw [combineMasks, pix_foldl_orMask hi hj ms _ (maskShape_zerosMask H W) hms,
      pix_zerosMask, Bool.false_or]

theorem maskShape_combineMasks {H W : Nat} {ms : List Mask}
    (hms : ∀ m ∈ ms, maskShape H W m) :
    maskShape H W (combineMasks H W ms) :=
  maskShape_foldl_orMask ms _ (maskShape_zerosMask H W) hms

/-! ## Helper lemmas about score selection -/

theorem lastArgmax_lt_length : ∀ (l : List ℚ), l ≠ [] → lastArgmax l < l.length
  | [], h => absurd rfl h
  | [_], _ => by simp [lastArgmax]
  | s :: b :: t, _ => by
    rw [lastArgmax]
    by_cases h : s ≤ maxScore (b :: t)
    · rw [if_pos h]
      have := lastArgmax_lt_length (b :: t) (by simp)
      simpa [Nat.succ_lt_succ_iff] using this
    · rw [if_neg h]
      simp

theorem getD_lastArgmax : ∀ (l : List ℚ), l ≠ [] →
    l.getD (lastArgmax l) 0 = maxScore l
  | [], h => absurd rfl h
  | [s], _ => by simp [lastArgmax, maxScore]
  | s :: b :: t, _ => by
    rw [lastArgmax, maxScore]
    by_cases h : s ≤ maxScore (b :: t)
    · rw [if_pos h]
      have ih := getD_lastArgmax (b :: t) (by simp)
      calc (s :: b :: t).getD (lastArgmax (b :: t) + 1) 0
          = (b :: t).getD (lastArgmax (b :: t)) 0 := by simp [List.getD]
        _ = maxScore (b :: t) := ih
        _ = max s (maxScore (b :: t)) := (max_eq_right h).symm
    · rw [if_neg h]
      have hlt : maxScore (b :: t) ≤ s := le_of_lt (lt_of_not_le h)
      calc (s :: b :: t).getD 0 0 = s := rfl
        _ = max s (maxScore (b :: t)) := (max_eq_left hlt).symm

/-! ## Helper lemmas about the insertion-ordered dict -/

theorem dictInsert_fresh {α : Type} {d : List (Nat × α)} {k : Nat} (v : α)
    (hk : ∀ p ∈ d, p.1 ≠ k) : dictInsert d k v = d ++ [(k, v)] := by
  unfold dictInsert
  rw [if_neg]
  simp only [List.any_eq_true, decide_eq_true_eq, not_exists, not_and]
  intro p hp
  exact hk p hp

/-- Folding dict insertion over yields whose frame indices are fresh and
mutually distinct appends one entry per yield, in yield order. -/
theorem foldl_dictInsert_fresh {α : Type} (f : Yield → α) :
    ∀ (ys : List Yield) (d : List (Nat × α)),
      (ys.map Yield.frameIdx).Nodup →
      (∀ y ∈ ys, ∀ p ∈ d, p.1 ≠ y.frameIdx) →
      ys.foldl (fun d y => dictInsert d y.frameIdx (f y)) d
        = d ++ ys.map (fun y => (y.frameIdx, f y))
  | [], d, _, _ => by simp
  | y :: rest, d, hnd, hfresh => by
    rw [List.foldl_cons, dictInsert_fresh (f y) (fun p hp => hfresh y (by simp) p hp)]
    rw [List.map_cons, List.nodup_cons] at hnd
    rw [foldl_dictInsert_fresh f rest (d ++ [(y.frameIdx, f y)]) hnd.2 ?fresh]
    · simp
    case fresh =>
      intro z hz p hp
      rcases List.mem_append.mp hp with hpd | hpy
      · exact hfresh z (by simp [hz]) p hpd
      · have hpz : p = (y.frameIdx, f y) := by simpa using hpy
        subst hpz
        intro hcontra
        have hc2 : y.frameIdx = z.frameIdx := hcontra
        apply hnd.1
        rw [hc2]
        exact List.mem_map_of_mem Yield.frameIdx hz

/-! ## Helper lemma on the combined per-frame mask -/

theorem list_any_map {α β : Type} (f : α → β) (l : List α) (p : β → Bool) :
    (l.map f).any p = l.any (fun a => p (f a)) := by
  induction l with
  | nil => rfl
  | cons a t ih => simp [ih]

theorem pix_combineY {H W : Nat} {y : Yield}
    (hlen : y.objIds.length ≤ y.logits.length)
    (hq : ∀ q ∈ y.logits, qmaskShape H W q)
    {i j : Nat} (hi : i < H) (hj : j < W) :
    pix (combineY H W y) i j
      = (List.range y.objIds.length).any
          (fun k => decide (0 < qpix (y.logits.getD k []) i j)) := by
  unfold combineY
  have hshape : ∀ k ∈ List.range y.objIds.length,
      maskShape H W (threshMask (y.logits.getD k [])) := by
    intro k hk
    have hk2 : k < y.logits.length :=
      lt_of_lt_of_le (List.mem_range.mp hk) hlen
    refine maskShape_threshMask (hq _ ?_)
    rw [List.getD_eq_getElem _ _ hk2]
    exact List.getElem_mem _
  have hfold :
      (List.range y.objIds.length).foldl
        (fun acc k => orMask acc (threshMask (y.logits.getD k []))) (zerosMask H W)
      = ((List.range y.objIds.length).map
          (fun k => threshMask (y.logits.getD k []))).foldl orMask (zerosMask H W) := by
    rw [List.foldl_map]
  rw [hfold,
      pix_foldl_orMask hi hj _ _ (maskShape_zerosMask H W) ?hm, pix_zerosMask,
      Bool.false_or]
  · rw [list_any_map]
    refine congrArg _ (funext fun k => ?_)
    rw [pix_threshMask]
  case hm =>
    intro m hm
    rcases List.mem_map.mp hm with ⟨k, hk, rfl⟩
    exact hshape k hk

/-! ## Helper lemmas for Florence2toCoordinates -/

theorem nonBatchLoop_error (d0 : List Box4) :
    ∀ (l : List Int) (acc : List (Int × Int) × List Box4) (idx : Int),
      idx ∈ l → ¬(0 ≤ idx ∧ idx < (d0.length : Int)) →
      (nonBatchLoop d0 l acc).isOk = false
  | [], _, _, hmem, _ => absurd hmem (List.not_mem_nil _)
  | i :: rest, acc, idx, hmem, hbad => by
    rw [nonBatchLoop]
    by_cases hcond : 0 ≤ i ∧ i < (d0.length : Int)
    · rw [if_pos hcond]
      rcases List.mem_cons.mp hmem with rfl | hrest
      · exact absurd hcond hbad
      · exact nonBatchLoop_error d0 rest _ idx hrest hbad
    · rw [if_neg hcond]
      rfl

theorem batchLoop_all_invalid (data : List (List Box4)) (n : Nat) :
    ∀ (l : List Int) (acc : List (Int × Int) × List Box4),
      (∀ idx ∈ l, ¬(0 ≤ idx ∧ idx < (n : Int))) →
      batchLoop data n l acc = .ok acc
  | [], _, _ => rfl
  | idx :: rest, acc, hall => by
    rw [batchLoop, if_neg (hall idx (by simp))]
    exact batchLoop_all_invalid data n rest acc (fun i hi => hall i (by simp [hi]))

theorem nonBatchLoop_ok (d0 : List Box4) :
    ∀ (l : List Int) (acc : List (Int × Int) × List Box4),
      (∀ idx ∈ l, 0 ≤ idx ∧ idx < (d0.length : Int)) →
      nonBatchLoop d0 l acc
        = .ok (acc.1 ++ l.map (fun idx => centerOf (d0.getD idx.toNat ⟨0, 0, 0, 0⟩)),
               acc.2 ++ l.map (fun idx => d0.getD idx.toNat ⟨0, 0, 0, 0⟩))
  | [], acc, _ => by simp [nonBatchLoop]
  | i :: rest, acc, hall => by
    rw [nonBatchLoop, if_pos (hall i (by simp)),
        nonBatchLoop_ok d0 rest _ (fun idx h => hall idx (by simp [h]))]
    simp

/-! ## Helper lemma for the Sam2AutoSegmentation loop -/

theorem foldl_autoStep (H W : Nat) (colors : Nat → Nat → Color) :
    ∀ (l : List (List Proposal)) (k : Nat)
      (accm : List Mask) (acco : List (List (List Color))) (accb : List Box4),
      (List.enumFrom k l).foldl (autoStep H W colors) (accm, acco, accb)
        = (accm ++ (List.enumFrom k l).map
             (fun ip => combineMasks H W (ip.2.map (fun p => p.segmentation))),
           acco ++ (List.enumFrom k l).map
             (fun ip => overlayImage H W
               ((ip.2.map (fun p => p.segmentation)).zip
                ((List.range ip.2.length).map (colors ip.1)))),
           (l.map (fun props => props.map (fun p => p.bbox))).getLastD accb)
  | [], k, accm, acco, accb => by simp
  | props :: rest, k, accm, acco, accb => by
    rw [List.enumFrom_cons, List.foldl_cons]
    show (List.enumFrom (k + 1) rest).foldl (autoStep H W colors)
        (autoStep H W colors (accm, acco, accb) (k, props)) = _
    rw [autoStep]
    rw [foldl_autoStep H W colors rest (k + 1) _ _ _]
    simp only [List.map_cons, List.getLastD_cons, List.append_assoc, List.singleton_append]

theorem enumFrom_map_snd {α β : Type} (f : α → β) :
    ∀ (k : Nat) (l : List α), (List.enumFrom k l).map (fun ip => f ip.2) = l.map f
  | _, [] => rfl
  | k, a :: t => by
    rw [List.enumFrom_cons, List.map_cons, List.map_cons, enumFrom_map_snd f (k + 1) t]

/-! ## Helper lemmas about `Except` computations -/

theorem except_bind_ok {ε α β : Type} (a : α) (f : α → Except ε β) :
    (Except.ok a >>= f) = f a := rfl

theorem except_bind_error {ε α β : Type} (e : ε) (f : α → Except ε β) :
    ((Except.error e : Except ε α) >>= f) = Except.error e := rfl

theorem except_map_ok {ε α β : Type} (f : α → β) (a : α) :
    Except.map f (Except.ok a : Except ε α) = Except.ok (f a) := rfl

theorem except_map_error {ε α β : Type} (f : α → β) (e : ε) :
    Except.map f (Except.error e : Except ε α) = Except.error e := rfl

/-! ## Claim C10 -/

/-- Claim C10: a call to `Sam2Segmentation.segment` with `enabled = false`
returns a single all-zero mask whose spatial shape is the input image
height and width (output shape `1 × H × W`) and performs no model
operation at all — the operation trace is empty, so there is no prompt
parsing, no device placement and no predict call. -/
theorem c10_disabled_short_circuit (m : SamModel) (B H W : Nat)
    (keepModelLoaded : Bool) (P N : Option (List Point))
    (individualObjects bboxesGiven : Bool)
    (predictOut : Nat → PredictOut) (videoYields : List Yield) :
    segment m B H W keepModelLoaded P N individualObjects bboxesGiven false
        predictOut videoYields
      = .ok ([zerosMask H W], []) ∧
    [zerosMask H W].length = 1 ∧
    maskShape H W (zerosMask H W) ∧
    (∀ i j : Nat, pix (zerosMask H W) i j = false) :=
  ⟨rfl, rfl, maskShape_zerosMask H W, fun i j => pix_zerosMask H W i j⟩

/-! ## Claim C6 -/

/-- Claim C6: at most one InferenceState is held per session instance,
and initializing with a new video while a prior state exists first
resets the prior state (the `reset` call precedes the `init` call in the
trace), so two consecutive initializations with no intervening
propagation leave a state whose prompt set is empty — whatever prompts
the first state `st` carried are discarded. -/
theorem c6_double_init_discards_prompts (st : InferenceState)
    (v1 v2 : List Nat) :
    (initStep (initStep ⟨some st⟩ v1).1 v2).1.inference_state
        = some { numFrames := v2.length, prompts := [] } ∧
    (initStep (initStep ⟨some st⟩ v1).1 v2).2
        = [VideoOp.reset (initState v1), VideoOp.initCall v2] ∧
    (initStep ⟨some st⟩ v1).2 = [VideoOp.reset st, VideoOp.initCall v1] ∧
    (initState v2).prompts = [] :=
  ⟨rfl, rfl, rfl, rfl⟩

/-! ## Claim C3 -/

/-- Claim C3 counterexample: for the literal empty negative coordinate
list the claim predicts the concatenation `P ++ []` with an all-ones
label array of length |P|, but the construction fails:
`np.concatenate` at line 260 raises a ValueError because the positive
array is 2-dimensional while `np.array([])` is 1-dimensional. -/
theorem c3_counterexample :
    sharedCoords [((1 : Int), (1 : Int))] (some [])
      = .error "ValueError: all the input arrays must have same number of dimensions" := rfl

/-- Claim C3 as amended: with `individual_objects = false` and a
negative coordinate input that is absent or nonempty, the built
coordinate array is the concatenation of the positives followed by the
negatives and the parallel label array is |P| ones followed by |N|
zeros; when the negative input is absent the label array has length |P|
and every entry is 1.  A literal empty negative list instead raises a
ValueError at the coordinate concatenation (line 260). -/
theorem c3_shared_prompts (P : List Point) (N : Option (List Point))
    (hP : P ≠ []) :
    (N = some [] →
      sharedCoords P N
        = .error "ValueError: all the input arrays must have same number of dimensions" ∧
      buildFinalCoords false P N
        = .error "ValueError: all the input arrays must have same number of dimensions") ∧
    (N ≠ some [] →
      sharedCoords P N = .ok (P ++ N.getD []) ∧
      (sharedLabels P N).length = P.length + (N.getD []).length ∧
      (∀ i, i < P.length → (sharedLabels P N).getD i 0 = 1) ∧
      (∀ i, P.length ≤ i → i < P.length + (N.getD []).length →
        (sharedLabels P N).getD i 0 = 0) ∧
      (N = none → sharedLabels P N = List.replicate P.length 1 ∧
        (sharedLabels P N).length = P.length) ∧
      buildFinalCoords false P N = .ok [P ++ N.getD []]) := by
  have hone : ∀ (k i : Nat) (a : Int), i < k → (List.replicate k a).getD i 0 = a := by
    intro k i a hik
    have hik2 : i < (List.replicate k a).length := by
      rw [List.length_replicate]; exact hik
    rw [List.getD_eq_getElem _ _ hik2, List.getElem_replicate]
  constructor
  · rintro rfl
    exact ⟨rfl, rfl⟩
  · intro hN
    cases N with
    | none =>
      refine ⟨by simp [sharedCoords], by simp [sharedLabels], ?_, ?_, ?_,
        by simp [buildFinalCoords, sharedCoords, except_map_ok]⟩
      · intro i hi
        exact hone P.length i 1 hi
      · intro i hge hlt
        simp only [Option.getD_none, List.length_nil, Nat.add_zero] at hlt
        exact absurd hlt (Nat.not_lt.mpr hge)
      · intro _
        exact ⟨rfl, by simp [sharedLabels]⟩
    | some ns =>
      cases ns with
      | nil => exact absurd rfl hN
      | cons n0 nrest =>
        refine ⟨rfl, by simp [sharedLabels], ?_, ?_, ?_, rfl⟩
        · intro i hi
          rw [sharedLabels, List.getD_append _ _ _ _ (by simpa using hi)]
          exact hone P.length i 1 hi
        · intro i hge hlt
          have hitot : i < (List.replicate P.length (1 : Int)
              ++ List.replicate (n0 :: nrest).length (0 : Int)).length := by
            simpa using hlt
          rw [sharedLabels, List.getD_eq_getElem _ _ hitot,
              List.getElem_append_right (by simpa using hge), List.getElem_replicate]
        · intro hcontra
          exact absurd hcontra (by simp)

/-- Claim C3 witness: one positive and one negative point concatenate
positives-first with labels `[1, 0]`; with no negatives the labels are
all ones of length |P|; the literal empty negative list fails. -/
theorem c3_witness :
    sharedCoords [((1 : Int), (2 : Int))] (some [((3 : Int), (4 : Int))])
        = .ok [((1 : Int), (2 : Int)), ((3 : Int), (4 : Int))] ∧
    (sharedLabels [((1 : Int), (2 : Int))] (some [((3 : Int), (4 : Int))])).getD 0 0
        = 1 ∧
    (sharedLabels [((1 : Int), (2 : Int))] (some [((3 : Int), (4 : Int))])).getD 1 0
        = 0 ∧
    sharedLabels [((1 : Int), (2 : Int))] none = List.replicate 1 1 ∧
    (sharedCoords [((1 : Int), (2 : Int))] (some [])).isOk = false := by
  have h := (c3_shared_prompts [(1, 2)] (some [(3, 4)]) (by decide)).2 (by decide)
  have h2 := (c3_shared_prompts [(1, 2)] none (by decide)).2 (by decide)
  have h3 := (c3_shared_prompts [(1, 2)] (some []) (by decide)).1 rfl
  exact ⟨by simpa using h.1, h.2.2.1 0 (by decide),
    h.2.2.2.1 1 (by decide) (by decide), (h2.2.2.2.2.1 rfl).1,
    by rw [h3.1]; rfl⟩

/-! ## Claim C2 -/

/-- Claim C2 counterexample: with one positive point and an empty
negative coordinate list (`|N| = 0 ≤ |P| = 1`) the claim predicts
success, but the construction fails: `np.array([])` is 1-dimensional, so
the padding loop's slice `[:1, :, :]` raises an IndexError. -/
theorem c2_counterexample :
    individualGroups [((1 : Int), (1 : Int))] []
      = .error "IndexError: too many indices for array" := rfl

/-- Claim C2 as amended: with `individual_objects = true` and a nonempty
negative list, construction fails exactly when |N| > |P| (the assert at
line 252); an empty negative list also fails (IndexError in the padding
loop).  On success the negative groups are padded by repeating the first
negative group until their count equals |P|, and group `i` is the `i`-th
positive point followed by its negative point — the `i`-th negative for
`i < |N|`, the first negative after that. -/
theorem c2_individual_padding (P N : List Point) (hP : P ≠ []) :
    ((P.length < N.length ∨ N = []) → (individualGroups P N).isOk = false) ∧
    (N ≠ [] → N.length ≤ P.length →
      (individualGroups P N).isOk = true ∧
      ∀ gs, individualGroups P N = .ok gs →
        gs.length = P.length ∧
        ∀ i, i < P.length →
          gs.getD i [] = P.getD i (0, 0) ::
            (if i < N.length then [N.getD i (0, 0)] else [N.getD 0 (0, 0)])) := by
  constructor
  · rintro (hlt | rfl)
    · unfold individualGroups
      rw [if_pos hlt]
      rfl
    · unfold individualGroups
      rw [if_neg (by simp)]
      rfl
  · intro hne hle
    refine ⟨?_, ?_⟩
    · unfold individualGroups
      rw [if_neg (Nat.not_lt.mpr hle)]
      cases N with
      | nil => exact absurd rfl hne
      | cons n0 nrest => rfl
    intro gs hgs
    unfold individualGroups at hgs
    rw [if_neg (Nat.not_lt.mpr hle)] at hgs
    cases N with
    | nil => exact absurd rfl hne
    | cons n0 nrest =>
      simp only [Except.ok.injEq] at hgs
      subst hgs
      have hneglen : ((n0 :: nrest).map (fun c => [c])
          ++ List.replicate (P.length - (n0 :: nrest).length) [n0]).length
            = P.length := by
        rw [List.length_append, List.length_map, List.length_replicate]
        exact Nat.add_sub_cancel' hle
      constructor
      · rw [List.length_zipWith, hneglen, min_self]
      · intro i hi
        have hiz : i < (List.zipWith (fun p g => p :: g) P
            ((n0 :: nrest).map (fun c => [c])
              ++ List.replicate (P.length - (n0 :: nrest).length) [n0])).length := by
          rw [List.length_zipWith, hneglen, min_self]; exact hi
        have hiP : i < P.length := hi
        rw [List.getD_eq_getElem _ _ hiz, List.getElem_zipWith,
            List.getD_eq_getElem _ _ hiP]
        refine congrArg _ ?_
        by_cases hin : i < (n0 :: nrest).length
        · rw [if_pos hin]
          have hin2 : i < ((n0 :: nrest).map (fun c => [c])).length := by
            rw [List.length_map]; exact hin
          rw [List.getElem_append _ _, dif_pos hin2, List.getElem_map,
              List.getD_eq_getElem _ _ hin]
        · rw [if_neg hin]
          have hin2 : ((n0 :: nrest).map (fun c => [c])).length ≤ i := by
            rw [List.length_map]; exact Nat.not_lt.mp hin
          rw [List.getElem_append_right hin2, List.getElem_replicate]
          rfl

/-- Claim C2 witness: `P = [(1,1), (3,4)]`, `N = [(9,9)]` succeeds with
the negative group repeated, and `N = []` fails. -/
theorem c2_witness :
    (individualGroups [((1 : Int), (1 : Int)), ((3 : Int), (4 : Int))] []).isOk
        = false ∧
    (individualGroups [((1 : Int), (1 : Int)), ((3 : Int), (4 : Int))]
      [((9 : Int), (9 : Int))]).isOk = true ∧
    ([[((1 : Int), (1 : Int)), ((9 : Int), (9 : Int))],
      [((3 : Int), (4 : Int)), ((9 : Int), (9 : Int))]] : List (List Point)).length
        = 2 ∧
    ([[((1 : Int), (1 : Int)), ((9 : Int), (9 : Int))],
      [((3 : Int), (4 : Int)), ((9 : Int), (9 : Int))]] : List (List Point)).getD 1 []
        = ((3 : Int), (4 : Int)) :: [((9 : Int), (9 : Int))] := by
  have h0 := (c2_individual_padding [(1, 1), (3, 4)] [] (by decide)).1 (Or.inr rfl)
  have h := (c2_individual_padding [(1, 1), (3, 4)] [(9, 9)] (by decide)).2
    (by decide) (by decide)
  have h2 := h.2
    [[((1 : Int), (1 : Int)), ((9 : Int), (9 : Int))],
     [((3 : Int), (4 : Int)), ((9 : Int), (9 : Int))]] (by rfl)
  exact ⟨h0, h.1, h2.1, by simpa using h2.2 1 (by decide)⟩

/-! ## Claim C1 -/

/-- Claim C1 counterexample: a `Sam2Segmentation.segment` call with a
`video`-mode handle does not fail — the node runs the video branch and
produces a mask, contradicting the claim that the call fails with a
user-facing error and never produces masks in `video` mode. -/
theorem c1_counterexample :
    segment ⟨Segmentor.video, true, false, false⟩ 1 1 1 true
        (some [(1, 1)]) none false false true
        (fun _ => PredictOut.perObject []) [⟨0, [1], [[[1]]]⟩]
      = .ok ([[[true]]],
             [SegOp.toDeviceOuter, SegOp.initStateCall, SegOp.addPointsCall 1,
              SegOp.propagateCall]) := rfl

/-- Claim C1 as amended: with `enabled = true`, a call whose handle mode
is `automaskgenerator` fails with a user-facing error before any
inference is run and never produces masks; a call whose handle mode is
`video` does not fail on account of its mode — the node runs video
segmentation there and can produce masks — though video-specific
configuration errors are still raised before inference, such as bboxes
with a pre-2.1 model or bboxes combined with `individual_objects`. -/
theorem c1_mode_errors (m : SamModel) (B H W : Nat) (keep : Bool)
    (P N : Option (List Point)) (indiv bb : Bool)
    (predictOut : Nat → PredictOut) (yields : List Yield) :
    (m.segmentor = Segmentor.automaskgenerator →
      segment m B H W keep P N indiv bb true predictOut yields
        = .error "For automaskgenerator use Sam2AutoMaskSegmentation -node") ∧
    (m.segmentor = Segmentor.video → bb = true → m.version21 = false →
      segment m B H W keep P N indiv bb true predictOut yields
        = .error "2.0 model does not support bboxes with video segmentor") ∧
    (m.segmentor = Segmentor.video → m.version21 = true → indiv = true →
      bb = true → P = none → m.outerToFails = false →
      segment m B H W keep P N indiv bb true predictOut yields
        = .error "bboxes not supported with individual_objects") := by
  refine ⟨?_, ?_, ?_⟩
  · intro hm
    unfold segment
    rw [if_neg (by simp), if_pos hm]
  · intro hm hbb hv
    unfold segment
    rw [if_neg (by simp), if_neg (by rw [hm]; simp),
        if_pos ⟨hm, by rw [hbb], hv⟩]
  · intro hm hv hindiv hbb hP houter
    subst hindiv hbb hP
    simp [segment, hm, hv, houter, tryToDevice, videoBranch,
      except_bind_ok, except_bind_error, except_map_ok, except_map_error]

/-- Claim C1 witness: the automaskgenerator-mode error at a concrete
call. -/
theorem c1_witness :
    segment ⟨Segmentor.automaskgenerator, true, false, false⟩ 1 2 3 true
        none none false false true (fun _ => PredictOut.perObject []) []
      = .error "For automaskgenerator use Sam2AutoMaskSegmentation -node" :=
  (c1_mode_errors ⟨Segmentor.automaskgenerator, true, false, false⟩ 1 2 3 true
    none none false false (fun _ => PredictOut.perObject []) []).1 rfl

/-! ## Claim C4 -/

/-- Claim C4: for a 3-dimensional predict output the kept mask is the
candidate selected by the descending score sort, whose score is the
maximum of the score list; for a per-object-id predict output the kept
mask is the pixelwise logical OR of all per-object masks. -/
theorem c4_mask_merge_policy :
    (∀ (masks : List Mask) (scores : List ℚ) (H W : Nat),
      masks.length = scores.length → scores ≠ [] →
      lastArgmax scores < masks.length ∧
      scores.getD (lastArgmax scores) 0 = maxScore scores ∧
      keepMask H W (.multi masks scores)
        = masks.getD (lastArgmax scores) (zerosMask H W)) ∧
    (∀ (H W : Nat) (ms : List Mask), (∀ m ∈ ms, maskShape H W m) →
      ∀ i j, i < H → j < W →
        pix (keepMask H W (.perObject ms)) i j
          = ms.any (fun mm => pix mm i j)) := by
  constructor
  · intro masks scores H W hlen hne
    refine ⟨?_, getD_lastArgmax _ hne, rfl⟩
    rw [hlen]
    exact lastArgmax_lt_length _ hne
  · intro H W ms hms i j hi hj
    show pix (combineMasks H W ms) i j = _
    exact pix_combineMasks hms hi hj

/-- Claim C4 witness: for scores `[0.2, 0.9, 0.5]` the mask associated
with score 0.9 (index 1) is kept, and a two-object output is merged by
pixelwise OR. -/
theorem c4_witness :
    keepMask 1 1 (.multi [[[false]], [[true]], [[false]]]
        [(2 : ℚ)/10, 9/10, 5/10]) = [[true]] ∧
    maxScore [(2 : ℚ)/10, 9/10, 5/10] = 9/10 ∧
    pix (keepMask 1 1 (.perObject [[[true]], [[false]]])) 0 0
      = ([[[true]], [[false]]] : List Mask).any (fun mm => pix mm 0 0) := by
  have h1 := (c4_mask_merge_policy.1 [[[false]], [[true]], [[false]]]
    [(2 : ℚ)/10, 9/10, 5/10] 1 1 (by decide) (by decide))
  have h2 := c4_mask_merge_policy.2 1 1 [[[true]], [[false]]]
    (by decide) 0 0 (by decide) (by decide)
  have hidx : lastArgmax [(2 : ℚ)/10, 9/10, 5/10] = 1 := by
    norm_num [lastArgmax, maxScore, max_def]
  have hmax : maxScore [(2 : ℚ)/10, 9/10, 5/10] = 9/10 := by
    norm_num [maxScore, max_def]
  refine ⟨?_, hmax, h2⟩
  rw [h1.2.2, hidx]
  rfl

/-! ## Claim C9 -/

/-- Claim C9 counterexample: in batch mode an out-of-range index is
silently skipped — the call returns successfully with empty output
instead of failing with a descriptive error. -/
theorem c9_counterexample :
    florenceSegment [[⟨0, 0, 10, 10⟩]] [5] true = .ok ([], []) := rfl

/-- Claim C9 as amended: a coordinate-extraction call that requests an
index outside `[0, len(data[0]))` fails with a descriptive error in
non-batch mode, but in batch mode the out-of-range index is silently
skipped — it contributes nothing to the output and raises nothing — so
a call whose requested indexes are all out of range returns successfully
with empty output. -/
theorem c9_index_range_check (data : List (List Box4)) (indexes : List Int) :
    (∀ idx ∈ indexes, data ≠ [] →
      ¬(0 ≤ idx ∧ idx < ((data.getD 0 []).length : Int)) →
      (florenceSegment data indexes false).isOk = false) ∧
    (data ≠ [] →
      (∀ idx ∈ indexes, ¬(0 ≤ idx ∧ idx < ((data.getD 0 []).length : Int))) →
      florenceSegment data indexes true = .ok ([], [])) := by
  constructor
  · intro idx hmem hdata hbad
    unfold florenceSegment
    rw [if_neg (fun hc => hdata (List.length_eq_zero.mp hc)), if_neg Bool.false_ne_true]
    exact nonBatchLoop_error _ indexes ([], []) idx hmem hbad
  · intro hdata hall
    unfold florenceSegment
    rw [if_neg (fun hc => hdata (List.length_eq_zero.mp hc)), if_pos rfl]
    exact batchLoop_all_invalid data _ indexes ([], []) hall

/-- Claim C9 witness: a concrete out-of-range request fails in non-batch
mode and is skipped (empty successful output) in batch mode. -/
theorem c9_witness :
    (florenceSegment [[⟨0, 0, 10, 10⟩]] [5] false).isOk = false ∧
    florenceSegment [[⟨0, 0, 10, 10⟩]] [5] true = .ok ([], []) := by
  have h := c9_index_range_check [[⟨0, 0, 10, 10⟩]] [5]
  exact ⟨h.1 5 (by decide) (by decide) (by decide), h.2 (by decide) (by decide)⟩

/-! ## Claim C7 -/

/-- Claim C7 counterexample: in `Sam2VideoSegmentation.segment` the
device placement at line 563 is a bare `model.to(device)` with no
`try/except` — on a handle whose outer placement raises (while the inner
attribute would succeed) the failure surfaces to the caller, so it is
not the case that every session operation retries on the inner attribute
and never surfaces a placement failure. -/
theorem c7_counterexample :
    videoSegmentNode ⟨Segmentor.video, true, true, false⟩ 1 1 true
        [⟨0, [0], [[[1]]]⟩]
      = .error "device placement failed" := rfl

/-- Claim C7 as amended: in `Sam2Segmentation.segment` the placement
calls are wrapped in `try/except` — a failing outer placement is retried
once on the inner `model.model` attribute, no failure surfaces when the
inner call succeeds, and the mask output does not depend on whether the
outer or inner placement succeeded; but in `Sam2VideoSegmentation.segment`
the placement calls are bare, and an outer placement failure surfaces to
the caller as an error. -/
theorem c7_placement_best_effort :
    (∀ (m : SamModel) (o i : SegOp), m.innerToFails = false →
      tryToDevice m o i = .ok (if m.outerToFails then [o, i] else [o])) ∧
    (∀ (s : Segmentor) (v o1 o2 : Bool) (B H W : Nat) (keep : Bool)
        (P N : Option (List Point)) (indiv bb en : Bool)
        (predictOut : Nat → PredictOut) (yields : List Yield),
      (segment ⟨s, v, o1, false⟩ B H W keep P N indiv bb en
          predictOut yields).map Prod.fst
        = (segment ⟨s, v, o2, false⟩ B H W keep P N indiv bb en
            predictOut yields).map Prod.fst) ∧
    (∀ (m : SamModel) (H W : Nat) (keep : Bool) (yields : List Yield),
      m.segmentor = Segmentor.video → m.outerToFails = true →
      videoSegmentNode m H W keep yields = .error "device placement failed") := by
  refine ⟨?_, ?_, ?_⟩
  · intro m o i hi
    cases ho : m.outerToFails <;> simp [tryToDevice, hi, ho]
  · intro s v o1 o2 B H W keep P N indiv bb en predictOut yields
    cases en with
    | false => rfl
    | true =>
      cases P with
      | none =>
        cases o1 <;> cases o2 <;> cases keep <;>
          rcases hvb : videoBranch H W indiv bb none yields with e2 | ⟨ml, ro⟩ <;>
          simp [segment, tryToDevice, hvb, except_bind_ok, except_bind_error,
            except_map_ok, except_map_error,
            apply_ite (Except.map (Prod.fst : List Mask × List SegOp → List Mask))]
      | some Ps =>
        cases hb : buildFinalCoords indiv Ps N with
        | error e =>
          cases o1 <;> cases o2 <;> cases keep <;>
            simp [segment, tryToDevice, hb, except_bind_ok, except_bind_error,
              except_map_ok, except_map_error]
        | ok gs =>
          cases o1 <;> cases o2 <;> cases keep <;>
            rcases hvb : videoBranch H W indiv bb (some gs) yields with e2 | ⟨ml, ro⟩ <;>
            simp [segment, tryToDevice, hb, hvb, except_bind_ok, except_bind_error,
              except_map_ok, except_map_error,
              apply_ite (Except.map (Prod.fst : List Mask × List SegOp → List Mask))]
  · intro m H W keep yields hseg houter
    unfold videoSegmentNode
    rw [if_neg (by rw [hseg]; simp), if_pos houter]

/-- Claim C7 witness: on a handle whose outer placement fails and inner
placement succeeds, `Sam2Segmentation.segment` retries on the inner
attribute and its mask output matches the no-failure run, while
`Sam2VideoSegmentation.segment` surfaces the failure. -/
theorem c7_witness :
    tryToDevice ⟨Segmentor.single_image, true, true, false⟩
        SegOp.toDeviceOuter SegOp.toDeviceInner
      = .ok [SegOp.toDeviceOuter, SegOp.toDeviceInner] ∧
    (segment ⟨Segmentor.single_image, true, true, false⟩ 1 1 1 true
        none none false false true
        (fun _ => PredictOut.perObject [[[true]]]) []).map Prod.fst
      = (segment ⟨Segmentor.single_image, true, false, false⟩ 1 1 1 true
          none none false false true
          (fun _ => PredictOut.perObject [[[true]]]) []).map Prod.fst ∧
    videoSegmentNode ⟨Segmentor.video, true, true, false⟩ 1 1 true []
      = .error "device placement failed" := by
  refine ⟨?_, ?_, ?_⟩
  · have h := c7_placement_best_effort.1
      ⟨Segmentor.single_image, true, true, false⟩
      SegOp.toDeviceOuter SegOp.toDeviceInner rfl
    simpa using h
  · exact c7_placement_best_effort.2.1 Segmentor.single_image true true false
      1 1 1 true none none false false true
      (fun _ => PredictOut.perObject [[[true]]]) []
  · exact c7_placement_best_effort.2.2 ⟨Segmentor.video, true, true, false⟩
      1 1 true [] rfl rfl

/-! ## Claim C8 -/

/-- Claim C8: an automatic-mask-generation call over a batch of images
returns one combined mask (the OR of that image's proposal masks) and
one visualization per image, but the returned bounding-box list is
exactly the boxes of the last processed image — `bbox_list` is rebound
on every loop iteration, so boxes of earlier images are dropped. -/
theorem c8_auto_last_image_boxes (m : SamModel) (H W : Nat)
    (images : List (List Proposal)) (colors : Nat → Nat → Color)
    (hm : m.segmentor = Segmentor.automaskgenerator) (hne : images ≠ []) :
    autoSegment m H W images colors
      = .ok (images.map
               (fun props => combineMasks H W (props.map (fun p => p.segmentation))),
             (List.enumFrom 0 images).map
               (fun ip => overlayImage H W
                 ((ip.2.map (fun p => p.segmentation)).zip
                  ((List.range ip.2.length).map (colors ip.1)))),
             (images.getLast hne).map (fun p => p.bbox)) ∧
    (images.map
      (fun props => combineMasks H W (props.map (fun p => p.segmentation)))).length
        = images.length ∧
    ((List.enumFrom 0 images).map
      (fun ip => overlayImage H W
        ((ip.2.map (fun p => p.segmentation)).zip
         ((List.range ip.2.length).map (colors ip.1))))).length = images.length := by
  have hfold := foldl_autoStep H W colors images 0 [] [] []
  have henum : images.enum = List.enumFrom 0 images := rfl
  have hmasks : (List.enumFrom 0 images).map
      (fun ip => combineMasks H W (ip.2.map (fun p => p.segmentation)))
        = images.map
            (fun props => combineMasks H W (props.map (fun p => p.segmentation))) :=
    enumFrom_map_snd
      (fun props => combineMasks H W (props.map (fun p => p.segmentation))) 0 images
  have hlast : ((images.map (fun props => props.map (fun p => p.bbox))).getLastD
      ([] : List Box4)) = (images.getLast hne).map (fun p => p.bbox) := by
    rw [List.getLastD_eq_getLast?, List.getLast?_map,
        List.getLast?_eq_getLast _ hne]
    rfl
  refine ⟨?_, by rw [List.length_map], by rw [List.length_map, List.enumFrom_length]⟩
  have hovne : (([] : List (List (List Color))) ++ (List.enumFrom 0 images).map
      (fun ip => overlayImage H W
        ((ip.2.map (fun p => p.segmentation)).zip
         ((List.range ip.2.length).map (colors ip.1))))) ≠ [] := by
    rw [List.nil_append]
    intro hc
    have hnil := List.map_eq_nil.mp hc
    have hlen := congrArg List.length hnil
    rw [List.enumFrom_length] at hlen
    exact hne (List.length_eq_zero.mp hlen)
  unfold autoSegment
  rw [if_neg (by rw [hm]; simp), henum, hfold]
  dsimp only
  rw [if_neg (fun hc => hovne (List.isEmpty_iff.mp hc)), List.nil_append,
      List.nil_append, hmasks, hlast]

/-- Claim C8 witness: a two-image batch keeps one combined mask and one
visualization per image but only the second image's box; a single image
with two proposals yields a bounding-box list of length 2 and a combined
mask equal to the OR of both proposals. -/
theorem c8_witness :
    autoSegment ⟨Segmentor.automaskgenerator, true, false, false⟩ 1 1
        [[⟨[[true]], ⟨0, 0, 1, 1⟩⟩], [⟨[[false]], ⟨2, 2, 3, 3⟩⟩]]
        (fun _ _ => (10, 20, 30))
      = .ok ([[[true]], [[false]]],
             [[[(10, 20, 30)]], [[(0, 0, 0)]]],
             [⟨2, 2, 3, 3⟩]) ∧
    autoSegment ⟨Segmentor.automaskgenerator, true, false, false⟩ 1 1
        [[⟨[[true]], ⟨0, 0, 1, 1⟩⟩, ⟨[[false]], ⟨2, 2, 3, 3⟩⟩]]
        (fun _ _ => (10, 20, 30))
      = .ok ([combineMasks 1 1 [[[true]], [[false]]]],
             [[[(10, 20, 30)]]],
             [⟨0, 0, 1, 1⟩, ⟨2, 2, 3, 3⟩]) ∧
    combineMasks 1 1 [[[true]], [[false]]] = [[true || false]] := by
  refine ⟨?_, ?_, by decide⟩
  · have h := (c8_auto_last_image_boxes
      ⟨Segmentor.automaskgenerator, true, false, false⟩ 1 1
      [[⟨[[true]], ⟨0, 0, 1, 1⟩⟩], [⟨[[false]], ⟨2, 2, 3, 3⟩⟩]]
      (fun _ _ => (10, 20, 30)) rfl (by decide)).1
    exact h.trans rfl
  · have h := (c8_auto_last_image_boxes
      ⟨Segmentor.automaskgenerator, true, false, false⟩ 1 1
      [[⟨[[true]], ⟨0, 0, 1, 1⟩⟩, ⟨[[false]], ⟨2, 2, 3, 3⟩⟩]]
      (fun _ _ => (10, 20, 30)) rfl (by decide)).1
    exact h.trans rfl

/-! ## Claim C5 -/

/-- Claim C5 counterexample: the propagation output follows the order in
which the generator yields frames, not ascending frame-index order.
Over a 2-frame state whose generator yields frame 1 (whose combined mask
is all-true) and then frame 0 (all-false), each frame exactly once, the
output is the yield-ordered `[frame-1 mask, frame-0 mask]`, not the
ascending `[frame-0 mask, frame-1 mask]` the claim requires — the two
orders differ because the two masks differ. -/
theorem c5_counterexample :
    videoSegmentNode ⟨Segmentor.video, true, false, false⟩ 1 1 true
        [⟨1, [0], [[[1]]]⟩, ⟨0, [0], [[[-1]]]⟩]
      = .ok ([[[true]], [[false]]],
             [SegOp.toDeviceOuter, SegOp.propagateCall]) ∧
    ([[[true]], [[false]]] : List Mask) ≠ [[[false]], [[true]]] :=
  ⟨rfl, by decide⟩

/-- Claim C5 as amended: over a state whose propagation generator yields
each frame index at most once — in whatever order it chooses — the
output is one combined mask per yield, in generator yield order, each
the pixelwise OR over the tracked object ids of that object's logits
thresholded at 0.0, and the output frame keys are exactly the yielded
frame indices in yield order; when the generator additionally yields the
frame indices `0, …, N-1` in ascending order, the output is exactly N
masks in ascending frame-index order. -/
theorem c5_propagation_all_frames (m : SamModel) (H W N : Nat) (keep : Bool)
    (yields : List Yield)
    (hm : m.segmentor = Segmentor.video) (houter : m.outerToFails = false)
    (hnd : (yields.map Yield.frameIdx).Nodup) (hys : yields ≠ [])
    (hshape : ∀ y ∈ yields, y.objIds.length ≤ y.logits.length ∧
       ∀ q ∈ y.logits, qmaskShape H W q) :
    videoSegmentNode m H W keep yields
      = .ok (yields.map (combineY H W),
             [SegOp.toDeviceOuter, SegOp.propagateCall]) ∧
    (videoSegmentsCombined H W yields).map Prod.fst = yields.map Yield.frameIdx ∧
    (yields.map (combineY H W)).length = yields.length ∧
    (yields.map Yield.frameIdx = List.range N →
      (yields.map (combineY H W)).length = N ∧
      (videoSegmentsCombined H W yields).map Prod.fst = List.range N) ∧
    (∀ y ∈ yields, ∀ i j, i < H → j < W →
      pix (combineY H W y) i j
        = (List.range y.objIds.length).any
            (fun k => decide (0 < qpix (y.logits.getD k []) i j))) := by
  have hsegs : videoSegmentsCombined H W yields
      = yields.map (fun y => (y.frameIdx, combineY H W y)) := by
    unfold videoSegmentsCombined
    rw [foldl_dictInsert_fresh (combineY H W) yields [] hnd (by simp)]
    rfl
  have hkeys : (videoSegmentsCombined H W yields).map Prod.fst
      = yields.map Yield.frameIdx := by
    rw [hsegs, List.map_map]
    rfl
  have hmasks : (videoSegmentsCombined H W yields).map Prod.snd
      = yields.map (combineY H W) := by
    rw [hsegs, List.map_map]
    rfl
  have hnonempty : (videoSegmentsCombined H W yields).map Prod.snd ≠ [] := by
    rw [hmasks]
    intro hc
    exact hys (List.map_eq_nil.mp hc)
  refine ⟨?_, hkeys, List.length_map _ _, ?_, ?_⟩
  · unfold videoSegmentNode
    rw [if_neg (by rw [hm]; simp), if_neg (by rw [houter]; simp)]
    dsimp only
    rw [if_neg (by rw [houter]; simp), if_neg (fun hc => hnonempty (List.isEmpty_iff.mp hc)),
        hmasks]
  · intro hframes
    have hyl : yields.length = N := by
      have := congrArg List.length hframes
      rwa [List.length_map, List.length_range] at this
    exact ⟨by rw [List.length_map, hyl], by rw [hkeys, hframes]⟩
  · intro y hy i j hi hj
    exact pix_combineY (hshape y hy).1 (hshape y hy).2 hi hj

/-- Claim C5 witness: a 2-frame propagation with an ascending generator
returns two masks in ascending frame order (the OR-threshold of each
frame's logits), while a generator yielding frames `[1, 0]` produces its
keys in that same yield order. -/
theorem c5_witness :
    videoSegmentNode ⟨Segmentor.video, true, false, false⟩ 1 1 true
        [⟨0, [0], [[[1]]]⟩, ⟨1, [0], [[[-1]]]⟩]
      = .ok ([[[true]], [[false]]],
             [SegOp.toDeviceOuter, SegOp.propagateCall]) ∧
    (videoSegmentsCombined 1 1
        [⟨0, [0], [[[1]]]⟩, ⟨1, [0], [[[-1]]]⟩]).map Prod.fst = List.range 2 ∧
    (videoSegmentsCombined 1 1
        [⟨1, [0], [[[1]]]⟩, ⟨0, [0], [[[-1]]]⟩]).map Prod.fst = [1, 0] := by
  have h := c5_propagation_all_frames ⟨Segmentor.video, true, false, false⟩
    1 1 2 true [⟨0, [0], [[[1]]]⟩, ⟨1, [0], [[[-1]]]⟩]
    rfl rfl (by decide) (by decide) (by decide)
  have h2 := c5_propagation_all_frames ⟨Segmentor.video, true, false, false⟩
    1 1 2 true [⟨1, [0], [[[1]]]⟩, ⟨0, [0], [[[-1]]]⟩]
    rfl rfl (by decide) (by decide) (by decide)
  exact ⟨h.1.trans (by rfl), (h.2.2.2.1 (by decide)).2, h2.2.1.trans (by decide)⟩

end SAM2Nodes
